import Mathlib

/-!
Verification of the plottable-data selection heuristic, the section
description resolver, the display orchestrator, the textual section
formatter and the loader error discipline of the fendl_vis repository
(files fendl_vis/gui.py, fendl_vis/viewer.py, fendl_vis/loader.py),
against its specification.

Modelling conventions:
- Python floats are modelled as exact decimal numbers (an integer
  mantissa over a power of ten); every numeric literal appearing in the
  claims is exactly representable this way, and the comparisons and
  decimal renderings the code performs are exact on this model.
- A section (the value of material.section_data[mf, mt]) is an
  association list from field name to field value, in iteration order.
  Python dict keys are unique and iterate in insertion order.
- A value with attributes x and y (such as endf Tabulated1D) is the
  constructor tab; numpy arrays and Python lists of numbers are both the
  constructor arr; remaining structured objects are obj.
- Code that raises is modelled with Except; code that cannot raise is a
  total function.
-/

namespace FendlVis

/-- Exact decimal number num / 10 ^ exp, the model of a Python float. -/
structure Dec where
  num : Int
  exp : Nat
deriving Repr, DecidableEq

/-- Field values of a section, after the shape dispatch the code performs
with isinstance and hasattr: scalars (int, float, str, bool, None),
numeric arrays (list or numpy array), tabulated pairs (objects with x and
y attributes) and other structured objects with named attributes. -/
inductive EndfValue where
  | int (n : Int)
  | float (v : Dec)
  | str (s : String)
  | bool (b : Bool)
  | none
  | arr (xs : List Dec)
  | tab (x y : List Dec)
  | obj (tyName : String) (attrs : List (String × EndfValue))

/-- A section mapping: field name to value, in iteration order. -/
abbrev SectionData := List (String × EndfValue)

/-- Whether a value exposes the tabulated-pair shape, the model of
hasattr(v, x) and hasattr(v, y). -/
def EndfValue.isTab : EndfValue → Bool
  | .tab _ _ => true
  | _ => false

/-- Whether a value is a numeric array, the model of
isinstance(v, (list, np.ndarray)). -/
def EndfValue.isArr : EndfValue → Bool
  | .arr _ => true
  | _ => false

/-- Lookup of a field by name, the model of indexing a Python dict
(section_data[key]); none models absence (key not in section_data). -/
def lookupField : SectionData → String → Option EndfValue
  | [], _ => Option.none
  | (k, v) :: rest, key => if k = key then Option.some v else lookupField rest key

/-- Step 1 of EndfGui._find_plottable_data (gui.py lines 381-388): scan
the fields in iteration order for the first value with both x and y
attributes and return the field name and the two arrays. -/
def findTabulated : SectionData → Option (String × List Dec × List Dec)
  | [] => Option.none
  | (k, EndfValue.tab x y) :: _ => Option.some (k, x, y)
  | _ :: rest => findTabulated rest

/-- The model of: key in section_data and
isinstance(section_data[key], (list, np.ndarray)). -/
def lookupArray (sd : SectionData) (key : String) : Option (List Dec) :=
  match lookupField sd key with
  | Option.some (EndfValue.arr xs) => Option.some xs
  | _ => Option.none

/-- Step 2 scan of EndfGui._find_plottable_data: first key of the
priority list that is present with an array value. -/
def findFirstArray (sd : SectionData) : List String → Option (String × List Dec)
  | [] => Option.none
  | k :: rest =>
    match lookupArray sd k with
    | Option.some xs => Option.some (k, xs)
    | Option.none => findFirstArray sd rest

/-- The independent-variable priority list of gui.py line 392. -/
def xPriorityKeys : List String := ["E", "energy", "x"]

/-- The dependent-variable priority list of gui.py line 398. -/
def yPriorityKeys : List String := ["sigma", "data", "y"]

/-- The x-axis label of gui.py line 395. -/
def xLabelFor (k : String) : String :=
  if k = "E" ∨ k = "energy" then "Energy (eV)" else "X values"

/-- The y-axis label of gui.py line 401. -/
def yLabelFor (k : String) : String :=
  if k = "sigma" then "Cross Section (barns)" else "Y values"

/-- The 4-tuple (x_data, y_data, xlabel, ylabel) that
EndfGui._find_plottable_data returns; None is Option.none. -/
structure PlotData where
  x_data : Option (List Dec)
  y_data : Option (List Dec)
  xlabel : Option String
  ylabel : Option String
deriving Repr, DecidableEq

/-- Steps 1 and 2 of EndfGui._find_plottable_data, before the final
length check (gui.py lines 376-402). -/
def selectRaw (sd : SectionData) : PlotData :=
  match findTabulated sd with
  | Option.some (k, x, y) =>
      { x_data := Option.some x, y_data := Option.some y
        xlabel := Option.some "X values", ylabel := Option.some (k ++ " values") }
  | Option.none =>
      let xr := findFirstArray sd xPriorityKeys
      let yr := findFirstArray sd yPriorityKeys
      { x_data := xr.map (fun p => p.2)
        y_data := yr.map (fun p => p.2)
        xlabel := xr.map (fun p => xLabelFor p.1)
        ylabel := yr.map (fun p => yLabelFor p.1) }

/-- The length check of gui.py lines 404-407: when both arrays are
present with unequal lengths, only x_data and y_data are reset to None;
the labels already assigned are kept. -/
def lengthCheck (r : PlotData) : PlotData :=
  match r.x_data, r.y_data with
  | Option.some xs, Option.some ys =>
      if xs.length ≠ ys.length then { r with x_data := Option.none, y_data := Option.none }
      else r
  | _, _ => r

/-- EndfGui._find_plottable_data (gui.py lines 374-409): steps 1 and 2,
then the final length check. The function is total: no path raises. -/
def find_plottable_data (sd : SectionData) : PlotData :=
  lengthCheck (selectRaw sd)

/-- The MF (file number) description table, identical in gui.py lines
598-615, viewer.py lines 199-216 and loader.py lines 157-174. -/
def mf_descriptions : List (Nat × String) :=
  [(1, "General Information"),
   (2, "Resonance Parameters"),
   (3, "Cross Sections"),
   (4, "Angular Distributions"),
   (5, "Energy Distributions"),
   (6, "Energy-Angle Distributions"),
   (7, "Thermal Scattering Data"),
   (8, "Radioactivity and Fission-Product Yields"),
   (9, "Multiplicities"),
   (10, "Cross Sections for Production of Radioactive Nuclides"),
   (12, "Multiplicities and Transition Probability Arrays"),
   (13, "Photon Production Cross Sections"),
   (14, "Photon Angular Distributions"),
   (15, "Continuous Photon Energy Spectra"),
   (23, "Smooth Photon Interaction Cross Sections"),
   (27, "Atomic Form Factors")]

/-- The MT (section number) description table, identical in gui.py lines
620-635, viewer.py lines 222-237, loader.py lines 188-203 and
plotter.py lines 179-194. -/
def mt_descriptions : List (Nat × String) :=
  [(1, "Total cross section"),
   (2, "Elastic scattering"),
   (3, "Nonelastic cross section"),
   (4, "Inelastic cross section"),
   (5, "Sum of all reactions not given explicitly"),
   (16, "(n,2n)"),
   (17, "(n,3n)"),
   (18, "Fission"),
   (51, "Inelastic scattering to 1st excited state"),
   (102, "Radiative capture (n,gamma)"),
   (103, "(n,p)"),
   (104, "(n,d)"),
   (105, "(n,t)"),
   (451, "File information and dictionary")]

/-- Table lookup by numeric code. -/
def tableLookup : List (Nat × String) → Nat → Option String
  | [], _ => Option.none
  | (c, s) :: rest, code => if c = code then Option.some s else tableLookup rest code

/-- The MF lookup with its formatted fallback,
mf_descriptions.get(mf, f-string File mf). -/
def get_mf_description (mf : Nat) : String :=
  (tableLookup mf_descriptions mf).getD ("File " ++ toString mf)

/-- The MT lookup with its formatted fallback,
mt_descriptions.get(mt, f-string MT=mt). -/
def get_mt_description (mt : Nat) : String :=
  (tableLookup mt_descriptions mt).getD ("MT=" ++ toString mt)

/-- EndfViewer._get_section_description (viewer.py lines 172-194). -/
def viewerSectionDescription (mf mt : Nat) : String :=
  if mf = 1 ∧ mt = 451 then "General information and section directory"
  else get_mf_description mf ++ " - " ++ get_mt_description mt

/-- EndfLoader._get_section_description (loader.py lines 124-145). -/
def loaderSectionDescription (mf mt : Nat) : String :=
  if mf = 1 ∧ mt = 451 then "General information"
  else get_mf_description mf ++ " - " ++ get_mt_description mt

/-- The errors EndfLoader.load_file raises: FileNotFoundError for a
missing path, and the wrapping Exception whose message embeds the
message of the underlying parse failure. -/
inductive LoadError where
  | fileNotFound (path : String)
  | parseError (msg : String)
deriving Repr, DecidableEq

/-- EndfLoader.load_file (loader.py lines 32-55), parameterised by the
filesystem existence test and by the external parser (endf.Material),
which yields a parsed material of abstract type M or a failure message. -/
def load_file {M : Type} (fsExists : String → Bool)
    (parse : String → Except String M) (path : String) : Except LoadError M :=
  if fsExists path = false then Except.error (LoadError.fileNotFound path)
  else
    match parse path with
    | Except.ok m => Except.ok m
    | Except.error e => Except.error (LoadError.parseError e)

/-- What a successful render hands to the plotting collaborator: the two
data fields and the axis labels (None when the caller passes no label). -/
structure Chart where
  x_data : EndfValue
  y_data : EndfValue
  xlabel : Option String
  ylabel : Option String

/-- EndfPlotter.plot_cross_section data extraction (plotter.py lines
26-42): requires a sigma field; uses its x and y attributes when it is
a tabulated pair, else falls back to the E field with sigma as an array,
else raises ValueError. Axis labels are fixed (plotter.py lines 56-57).
The matplotlib rendering itself is out of scope. -/
def plot_cross_section (sd : SectionData) : Except String Chart :=
  match lookupField sd "sigma" with
  | Option.none => Except.error "Section data must contain sigma key"
  | Option.some sigma =>
    match sigma with
    | EndfValue.tab x y =>
        Except.ok { x_data := EndfValue.arr x, y_data := EndfValue.arr y
                    xlabel := Option.some "Energy (eV)"
                    ylabel := Option.some "Cross Section (barns)" }
    | EndfValue.arr ys =>
        match lookupField sd "E" with
        | Option.some e =>
            Except.ok { x_data := e, y_data := EndfValue.arr ys
                        xlabel := Option.some "Energy (eV)"
                        ylabel := Option.some "Cross Section (barns)" }
        | Option.none => Except.error "Could not find plottable cross section data"
    | _ => Except.error "Could not find plottable cross section data"

/-- EndfGui._display_plot data selection (gui.py lines 333-360): with a
sigma field it calls EndfPlotter.plot_cross_section, otherwise it calls
_find_plottable_data and raises ValueError when no pair was found.
Every failure this code itself raises is a ValueError. -/
def display_plot (sd : SectionData) : Except String Chart :=
  if (lookupField sd "sigma").isSome then plot_cross_section sd
  else
    let r := find_plottable_data sd
    match r.x_data, r.y_data with
    | Option.some xs, Option.some ys =>
        Except.ok { x_data := EndfValue.arr xs, y_data := EndfValue.arr ys
                    xlabel := r.xlabel, ylabel := r.ylabel }
    | _, _ => Except.error "No plottable data found"

/-- The outcome of displaying one section: a chart render or the
textual fallback. -/
inductive Rendered where
  | chart (c : Chart)
  | text

/-- The dispatch of EndfGui._plot_section (gui.py lines 268-286) for the
selected section: MF 3 with a sigma field attempts the chart and falls
back to text on any failure; MF 1 is always text; every other section
attempts the chart and falls back to text on the ValueError of
_display_plot. All errors the modelled code raises are ValueErrors. -/
def plot_section (mf : Nat) (sd : SectionData) : Rendered :=
  if mf = 3 ∧ (lookupField sd "sigma").isSome then
    match display_plot sd with
    | Except.ok c => Rendered.chart c
    | Except.error _ => Rendered.text
  else if mf = 1 then Rendered.text
  else
    match display_plot sd with
    | Except.ok c => Rendered.chart c
    | Except.error _ => Rendered.text

/-- Floor of the base-10 logarithm of a positive natural number (0 for
inputs below 10), by repeated division; the fuel argument makes the
recursion structural. -/
def natLog10Aux : Nat → Nat → Nat
  | _, 0 => 0
  | n, fuel + 1 => if n < 10 then 0 else natLog10Aux (n / 10) fuel + 1

/-- Floor of the base-10 logarithm. -/
def natLog10 (n : Nat) : Nat := natLog10Aux n n

/-- Round a / b to the nearest integer, ties to even, as Python rounds
when formatting a value to a fixed number of decimals. -/
def roundHalfEven (a b : Nat) : Nat :=
  let q := a / b
  let r := a % b
  if 2 * r < b then q
  else if b < 2 * r then q + 1
  else if q % 2 = 0 then q else q + 1

/-- Pad a string with leading zeros to the given width. -/
def padLeftZeros (w : Nat) (s : String) : String :=
  String.mk (List.replicate (w - s.length) '0') ++ s

/-- Python fixed-point formatting with 6 decimals (format spec .6f),
exact on the decimal model. -/
def formatFixed6 (v : Dec) : String :=
  let m := roundHalfEven (v.num.natAbs * 10 ^ 6) (10 ^ v.exp)
  let s := toString (m / 10 ^ 6) ++ "." ++ padLeftZeros 6 (toString (m % 10 ^ 6))
  if v.num < 0 then "-" ++ s else s

/-- Python scientific formatting with 6 decimals (format spec .6e),
exact on the decimal model: a mantissa in [1, 10) with 6 decimals, the
letter e, a signed exponent of at least two digits. -/
def formatSci (v : Dec) : String :=
  if v.num = 0 then "0.000000e+00"
  else
    let n := v.num.natAbs
    let m0 := roundHalfEven (n * 10 ^ 6) (10 ^ natLog10 n)
    let e0 : Int := (natLog10 n : Int) - (v.exp : Int)
    let m := if m0 = 10 ^ 7 then 10 ^ 6 else m0
    let e := if m0 = 10 ^ 7 then e0 + 1 else e0
    let mant := toString (m / 10 ^ 6) ++ "." ++ padLeftZeros 6 (toString (m % 10 ^ 6))
    let esign := if e < 0 then "-" else "+"
    let s := mant ++ "e" ++ esign ++ padLeftZeros 2 (toString e.natAbs)
    if v.num < 0 then "-" ++ s else s

/-- The scientific-notation test of gui.py line 475:
abs(value) < 0.001 or abs(value) > 1000, exact on the decimal model. -/
def useSci (v : Dec) : Bool :=
  1000 * v.num.natAbs < 10 ^ v.exp || 1000 * 10 ^ v.exp < v.num.natAbs

/-- The float formatting of gui.py lines 474-478. -/
def formatFloat (v : Dec) : String :=
  if useSci v then formatSci v else formatFixed6 v

/-- Whether a value lands in the scalar bucket of the formatter:
isinstance(value, (int, float, str, bool)) or value is None. -/
def EndfValue.isScalar : EndfValue → Bool
  | .int _ => true
  | .float _ => true
  | .str _ => true
  | .bool _ => true
  | EndfValue.none => true
  | _ => false

/-- Exact decimal rendering of a Dec, used for the str() conversion of a
float outside the threshold-formatted scalar block; str() of a binary
float actually prints its shortest round-tripping decimal, which agrees
with the exact decimal whenever the value was written as that decimal. -/
def decStr (v : Dec) : String :=
  let n := v.num.natAbs
  let ip := toString (n / 10 ^ v.exp)
  let fracDigits := padLeftZeros v.exp (toString (n % 10 ^ v.exp))
  let trimmed := String.mk (fracDigits.data.reverse.dropWhile (fun c => c = '0')).reverse
  let frac := if trimmed = "" then "0" else trimmed
  let s := ip ++ "." ++ frac
  if v.num < 0 then "-" ++ s else s

/-- The str() conversion of a scalar value, as Python renders it. -/
def pyStr : EndfValue → String
  | .int n => toString n
  | .float v => decStr v
  | .str s => s
  | .bool b => if b then "True" else "False"
  | _ => "None"

/-- The formatted value of one scalar field (gui.py lines 473-480):
floats through the threshold rule, everything else through str(). -/
def formatScalarValue : EndfValue → String
  | EndfValue.float v => formatFloat v
  | v => pyStr v

/-- Ordering of bucket items by their key, lexicographic on code points
as Python compares strings. -/
def keyLE {A : Type} (a b : String × A) : Prop := a.1 ≤ b.1

instance {A : Type} : DecidableRel (@keyLE A) :=
  fun a b => inferInstanceAs (Decidable (a.1 ≤ b.1))

instance {A : Type} : IsTotal (String × A) (@keyLE A) :=
  ⟨fun a b => le_total a.1 b.1⟩

instance {A : Type} : IsTrans (String × A) (@keyLE A) :=
  ⟨fun _ _ _ h1 h2 => le_trans h1 h2⟩

/-- Sorting the items of a bucket, the model of Python sorted() over
dict items: dict keys are unique, so sorted() orders the items by key,
and any sort produces the same ordering. -/
def sortByKey {A : Type} (l : List (String × A)) : List (String × A) :=
  List.insertionSort (@keyLE A) l

/-- The two text chunks inserted for one scalar field
(gui.py lines 482-483). -/
def scalarChunks (indent k : String) (v : EndfValue) : List String :=
  [indent ++ "  " ++ k ++ ": ", formatScalarValue v ++ "\n"]

/-- The chunks of the sample-element loop of gui.py lines 503-510: each
element in scientific notation, a comma-space separator between
consecutive elements. -/
def sampleChunks : List Dec → List String
  | [] => []
  | [v] => [formatSci v]
  | v :: rest => formatSci v :: ", " :: sampleChunks rest

/-- The chunks inserted for one array field (gui.py lines 488-515): key,
size, and for a nonempty array a sample of the first min(5, length)
elements followed by a truncation marker exactly when elements were
omitted. Numpy arrays are modelled as lists, so the size info is the
length form of line 492. -/
def arrayChunks (indent k : String) (xs : List Dec) : List String :=
  [indent ++ "  " ++ k ++ ": ", "length=" ++ toString xs.length ++ "\n"] ++
  (if 0 < xs.length then
    let sampleSize := min 5 xs.length
    [indent ++ "    Sample: ["] ++ sampleChunks (xs.take sampleSize) ++
    (if sampleSize < xs.length then
      [", ... (" ++ toString (xs.length - sampleSize) ++ " more)"]
     else []) ++
    ["]\n"]
   else [])

/-- Dispatch of an array-bucket entry to arrayChunks; the bucket only
ever holds arr values. -/
def arrayChunksOf (indent k : String) : EndfValue → List String
  | EndfValue.arr xs => arrayChunks indent k xs
  | _ => []

/-- The chunks inserted for one complex-object field (gui.py lines
521-540): a tabulated pair prints its point count; any other object
prints its type name and its public scalar attributes. -/
def objectChunks (indent k : String) : EndfValue → List String
  | EndfValue.tab x _ =>
      [indent ++ "  " ++ k ++ ": ", "Tabulated data with " ++ toString x.length ++ " points\n"]
  | EndfValue.obj ty attrs =>
      [indent ++ "  " ++ k ++ ": ", ty ++ "\n"] ++
      (let pub := attrs.filter (fun p => !(p.1.startsWith "_"))
       if pub.isEmpty then []
       else (indent ++ "    Attributes:\n") ::
         pub.flatMap (fun p =>
           if p.2.isScalar then [indent ++ "      " ++ p.1 ++ ": ", pyStr p.2 ++ "\n"]
           else []))
  | _ => [indent ++ "  " ++ k ++ ": "]

/-- EndfGui._format_section_data (gui.py lines 449-540) as the list of
text chunks inserted into the widget, in order: the fields are split
into scalar, array and complex-object buckets; each nonempty bucket gets
its header and its entries sorted by key. Font tags are presentation
only and are not modelled. -/
def format_section_data (sd : SectionData) (indent : String) : List String :=
  if sd.isEmpty then [indent ++ "No data available\n"]
  else
    let scalars := sd.filter (fun p => p.2.isScalar)
    let arrays := sd.filter (fun p => p.2.isArr)
    let objects := sd.filter (fun p => !p.2.isScalar && !p.2.isArr)
    (if scalars.isEmpty then []
     else (indent ++ "Scalar Values:\n") ::
       (sortByKey scalars).flatMap (fun p => scalarChunks indent p.1 p.2)) ++
    (if arrays.isEmpty then []
     else ("\n" ++ indent ++ "Array Data:\n") ::
       (sortByKey arrays).flatMap (fun p => arrayChunksOf indent p.1 p.2)) ++
    (if objects.isEmpty then []
     else ("\n" ++ indent ++ "Complex Objects:\n") ::
       (sortByKey objects).flatMap (fun p => objectChunks indent p.1 p.2))

/-- The rational value a Dec denotes. -/
def Dec.toRat (v : Dec) : ℚ := (v.num : ℚ) / 10 ^ v.exp

/-! ## Helper lemmas about the selector -/

/-- Step 1 skips an entry that does not expose the tabulated-pair shape. -/
theorem findTabulated_cons_of_not_tab (p : String × EndfValue) (l : SectionData)
    (h : p.2.isTab = false) : findTabulated (p :: l) = findTabulated l := by
  obtain ⟨k, v⟩ := p
  cases v <;> simp_all [findTabulated, EndfValue.isTab]

/-- Step 1 skips every leading entry without the tabulated-pair shape. -/
theorem findTabulated_append_of_no_tab (pre l : SectionData)
    (h : ∀ p ∈ pre, p.2.isTab = false) :
    findTabulated (pre ++ l) = findTabulated l := by
  induction pre with
  | nil => rfl
  | cons p rest ih =>
      rw [List.cons_append, findTabulated_cons_of_not_tab p _ (h p (by simp)),
        ih (fun q hq => h q (by simp [hq]))]

/-- Step 1 finds nothing in a section with no tabulated-pair field. -/
theorem findTabulated_eq_none_of_no_tab (sd : SectionData)
    (h : ∀ p ∈ sd, p.2.isTab = false) : findTabulated sd = Option.none := by
  have h2 := findTabulated_append_of_no_tab sd [] h
  simpa using h2

/-- When the selected arrays have equal lengths, the length check keeps
the selection. -/
theorem find_plottable_data_of_match (sd : SectionData) (xs ys : List Dec)
    (hx : (selectRaw sd).x_data = Option.some xs)
    (hy : (selectRaw sd).y_data = Option.some ys)
    (hlen : xs.length = ys.length) :
    find_plottable_data sd = selectRaw sd := by
  unfold find_plottable_data lengthCheck
  rw [hx, hy]
  simp [hlen]

/-- When the selected arrays have unequal lengths, the length check
resets the two data components and keeps the two labels. -/
theorem find_plottable_data_of_mismatch (sd : SectionData) (xs ys : List Dec)
    (hx : (selectRaw sd).x_data = Option.some xs)
    (hy : (selectRaw sd).y_data = Option.some ys)
    (hne : xs.length ≠ ys.length) :
    find_plottable_data sd =
      { selectRaw sd with x_data := Option.none, y_data := Option.none } := by
  unfold find_plottable_data lengthCheck
  rw [hx, hy]
  simp [hne]

/-! ## The claims -/

/-- C1: step-1 precedence of the plottable-data selector. For a section
that contains a tabulated-pair field (the first such field in iteration
order being (k, tab x y)) together with separately named E and sigma
array fields, the selector returns the two arrays of that tabulated-pair
field, with the generic independent-axis label and the dependent-axis
label built from the field name. The equal-length hypothesis is the
stated invariant of the tabulated-pair data model. -/
theorem selector_step1_tab_precedence
    (pre post : SectionData) (k : String) (x y es ss : List Dec)
    (hpre : ∀ p ∈ pre, p.2.isTab = false)
    (hE : lookupArray (pre ++ (k, EndfValue.tab x y) :: post) "E" = Option.some es)
    (hsigma : lookupArray (pre ++ (k, EndfValue.tab x y) :: post) "sigma" = Option.some ss)
    (hlen : x.length = y.length) :
    find_plottable_data (pre ++ (k, EndfValue.tab x y) :: post) =
      { x_data := Option.some x, y_data := Option.some y
        xlabel := Option.some "X values", ylabel := Option.some (k ++ " values") } := by
  have htab : findTabulated (pre ++ (k, EndfValue.tab x y) :: post)
      = Option.some (k, x, y) := by
    rw [findTabulated_append_of_no_tab _ _ hpre]; rfl
  have hsel : selectRaw (pre ++ (k, EndfValue.tab x y) :: post) =
      { x_data := Option.some x, y_data := Option.some y
        xlabel := Option.some "X values", ylabel := Option.some (k ++ " values") } := by
    simp [selectRaw, htab]
  rw [find_plottable_data_of_match _ x y (by rw [hsel]) (by rw [hsel]) hlen, hsel]

/-- Witness for C1: a concrete section holding a tabulated pair plus E
and sigma arrays; the tabulated pair wins. -/
theorem selector_step1_tab_precedence_witness :
    find_plottable_data
        [("tb", EndfValue.tab [⟨1, 0⟩] [⟨2, 0⟩]),
         ("E", EndfValue.arr [⟨1, 0⟩]),
         ("sigma", EndfValue.arr [⟨3, 0⟩])] =
      { x_data := Option.some [⟨1, 0⟩], y_data := Option.some [⟨2, 0⟩]
        xlabel := Option.some "X values", ylabel := Option.some "tb values" } :=
  selector_step1_tab_precedence []
    [("E", EndfValue.arr [⟨1, 0⟩]), ("sigma", EndfValue.arr [⟨3, 0⟩])]
    "tb" [⟨1, 0⟩] [⟨2, 0⟩] [⟨1, 0⟩] [⟨3, 0⟩] (by simp) rfl rfl rfl

/-- C2: step-2 priority of the plottable-data selector. In a section
with no tabulated-pair field, the independent variable is the first
present array field among E, energy, x in that order (in particular E
beats energy), the dependent variable the first present array field
among sigma, data, y in that order; E and energy carry the label
Energy (eV), sigma carries Cross Section (barns), the other matched
names carry the generic labels. -/
theorem selector_step2_priority :
    (∀ (sd : SectionData) (kx ky : String) (xs ys : List Dec),
      (∀ p ∈ sd, p.2.isTab = false) →
      findFirstArray sd xPriorityKeys = Option.some (kx, xs) →
      findFirstArray sd yPriorityKeys = Option.some (ky, ys) →
      xs.length = ys.length →
      find_plottable_data sd =
        { x_data := Option.some xs, y_data := Option.some ys
          xlabel := Option.some (xLabelFor kx), ylabel := Option.some (yLabelFor ky) })
    ∧ (∀ (sd : SectionData) (es : List Dec), lookupArray sd "E" = Option.some es →
        findFirstArray sd xPriorityKeys = Option.some ("E", es))
    ∧ (∀ (sd : SectionData) (ss : List Dec), lookupArray sd "sigma" = Option.some ss →
        findFirstArray sd yPriorityKeys = Option.some ("sigma", ss))
    ∧ xLabelFor "E" = "Energy (eV)" ∧ xLabelFor "energy" = "Energy (eV)"
    ∧ xLabelFor "x" = "X values"
    ∧ yLabelFor "sigma" = "Cross Section (barns)"
    ∧ yLabelFor "data" = "Y values" ∧ yLabelFor "y" = "Y values" := by
  refine ⟨?_, ?_, ?_, by decide, by decide, by decide, by decide, by decide, by decide⟩
  · intro sd kx ky xs ys hTab hx hy hlen
    have hnone := findTabulated_eq_none_of_no_tab sd hTab
    have hsel : selectRaw sd =
        { x_data := Option.some xs, y_data := Option.some ys
          xlabel := Option.some (xLabelFor kx), ylabel := Option.some (yLabelFor ky) } := by
      simp [selectRaw, hnone, hx, hy]
    rw [find_plottable_data_of_match _ xs ys (by rw [hsel]) (by rw [hsel]) hlen, hsel]
  · intro sd es h
    simp [findFirstArray, xPriorityKeys, h]
  · intro sd ss h
    simp [findFirstArray, yPriorityKeys, h]

/-- C3: length-mismatch handling. Whenever steps 1 or 2 selected both an
independent and a dependent array of unequal lengths, the selector
returns the not-found outcome (both data components None); the function
is total, so no exception is raised. -/
theorem selector_length_mismatch_not_found (sd : SectionData) (xs ys : List Dec)
    (hx : (selectRaw sd).x_data = Option.some xs)
    (hy : (selectRaw sd).y_data = Option.some ys)
    (hne : xs.length ≠ ys.length) :
    (find_plottable_data sd).x_data = Option.none
      ∧ (find_plottable_data sd).y_data = Option.none := by
  rw [find_plottable_data_of_mismatch sd xs ys hx hy hne]
  exact ⟨rfl, rfl⟩

/-- Witness for C3: E of length 5 and sigma of length 3 give the
not-found outcome. -/
theorem selector_length_mismatch_not_found_witness :
    (find_plottable_data
        [("E", EndfValue.arr [⟨1, 0⟩, ⟨2, 0⟩, ⟨3, 0⟩, ⟨4, 0⟩, ⟨5, 0⟩]),
         ("sigma", EndfValue.arr [⟨1, 0⟩, ⟨2, 0⟩, ⟨3, 0⟩])]).x_data = Option.none
    ∧ (find_plottable_data
        [("E", EndfValue.arr [⟨1, 0⟩, ⟨2, 0⟩, ⟨3, 0⟩, ⟨4, 0⟩, ⟨5, 0⟩]),
         ("sigma", EndfValue.arr [⟨1, 0⟩, ⟨2, 0⟩, ⟨3, 0⟩])]).y_data = Option.none :=
  selector_length_mismatch_not_found
    [("E", EndfValue.arr [⟨1, 0⟩, ⟨2, 0⟩, ⟨3, 0⟩, ⟨4, 0⟩, ⟨5, 0⟩]),
     ("sigma", EndfValue.arr [⟨1, 0⟩, ⟨2, 0⟩, ⟨3, 0⟩])]
    [⟨1, 0⟩, ⟨2, 0⟩, ⟨3, 0⟩, ⟨4, 0⟩, ⟨5, 0⟩] [⟨1, 0⟩, ⟨2, 0⟩, ⟨3, 0⟩]
    rfl rfl (by decide)

/-- C10: shape of the not-found signal on a length mismatch. Only the
two data components are reset to None; the two label components keep the
labels already assigned from the discarded fields, so a not-found result
can carry non-absent axis labels. -/
theorem selector_mismatch_keeps_labels (sd : SectionData) (xs ys : List Dec)
    (hx : (selectRaw sd).x_data = Option.some xs)
    (hy : (selectRaw sd).y_data = Option.some ys)
    (hne : xs.length ≠ ys.length) :
    find_plottable_data sd =
      { x_data := Option.none, y_data := Option.none
        xlabel := (selectRaw sd).xlabel, ylabel := (selectRaw sd).ylabel } :=
  find_plottable_data_of_mismatch sd xs ys hx hy hne

/-- Witness for C10: on a mismatched E and sigma pair the not-found
result still carries both axis labels. -/
theorem selector_mismatch_keeps_labels_witness :
    find_plottable_data
        [("E", EndfValue.arr [⟨1, 0⟩, ⟨2, 0⟩]), ("sigma", EndfValue.arr [⟨7, 0⟩])] =
      { x_data := Option.none, y_data := Option.none
        xlabel := Option.some "Energy (eV)"
        ylabel := Option.some "Cross Section (barns)" } :=
  selector_mismatch_keeps_labels
    [("E", EndfValue.arr [⟨1, 0⟩, ⟨2, 0⟩]), ("sigma", EndfValue.arr [⟨7, 0⟩])]
    [⟨1, 0⟩, ⟨2, 0⟩] [⟨7, 0⟩] rfl rfl (by decide)

/-- C4: section-description composition and fallbacks. Away from
(1, 451), both describe implementations compose the MF lookup and the MT
lookup with the separator, an unmapped MF code falls back to exactly
File followed by the code, an unmapped MT code to exactly MT= followed
by the code, the MF table has 16 entries and the MT table 14; the
resolver is a total function, so it always yields a string. -/
theorem describe_composition_and_fallbacks :
    (∀ mf mt : Nat, ¬(mf = 1 ∧ mt = 451) →
      viewerSectionDescription mf mt
          = get_mf_description mf ++ " - " ++ get_mt_description mt
        ∧ loaderSectionDescription mf mt
          = get_mf_description mf ++ " - " ++ get_mt_description mt)
    ∧ (∀ mf : Nat, tableLookup mf_descriptions mf = Option.none →
        get_mf_description mf = "File " ++ toString mf)
    ∧ (∀ mt : Nat, tableLookup mt_descriptions mt = Option.none →
        get_mt_description mt = "MT=" ++ toString mt)
    ∧ mf_descriptions.length = 16 ∧ mt_descriptions.length = 14 := by
  refine ⟨?_, ?_, ?_, by decide, by decide⟩
  · intro mf mt h
    rw [viewerSectionDescription, loaderSectionDescription, if_neg h, if_neg h]
    exact ⟨rfl, rfl⟩
  · intro mf h
    rw [get_mf_description, h]; rfl
  · intro mt h
    rw [get_mt_description, h]; rfl

/-- C5: the (1, 451) special case. The viewer returns the fixed literal
General information and section directory, the loader returns General
information; both differ from the generic MF - MT composition at
(1, 451); and on every other input the two implementations agree. -/
theorem describe_header_special_case :
    viewerSectionDescription 1 451 = "General information and section directory"
    ∧ loaderSectionDescription 1 451 = "General information"
    ∧ viewerSectionDescription 1 451
        ≠ get_mf_description 1 ++ " - " ++ get_mt_description 451
    ∧ loaderSectionDescription 1 451
        ≠ get_mf_description 1 ++ " - " ++ get_mt_description 451
    ∧ (∀ mf mt : Nat, ¬(mf = 1 ∧ mt = 451) →
        viewerSectionDescription mf mt = loaderSectionDescription mf mt) := by
  refine ⟨rfl, rfl, by decide, by decide, ?_⟩
  intro mf mt h
  rw [viewerSectionDescription, loaderSectionDescription, if_neg h, if_neg h]

/-- C6: the display-orchestrator decision table. With MF 3 and a sigma
field present, the section is rendered as a chart when the plot
succeeds and as text when it fails; MF 1 always renders as text; every
other section renders as a chart when the plot succeeds and as text on
the not-found failure of the plot attempt. -/
theorem plot_section_decision_table :
    (∀ sd : SectionData, (lookupField sd "sigma").isSome →
      (∀ c, display_plot sd = Except.ok c → plot_section 3 sd = Rendered.chart c)
      ∧ (∀ e, display_plot sd = Except.error e → plot_section 3 sd = Rendered.text))
    ∧ (∀ sd : SectionData, plot_section 1 sd = Rendered.text)
    ∧ (∀ (mf : Nat) (sd : SectionData), mf ≠ 1 →
        ¬(mf = 3 ∧ (lookupField sd "sigma").isSome = true) →
        (∀ c, display_plot sd = Except.ok c → plot_section mf sd = Rendered.chart c)
        ∧ (∀ e, display_plot sd = Except.error e → plot_section mf sd = Rendered.text)) := by
  refine ⟨?_, ?_, ?_⟩
  · intro sd hs
    constructor
    · intro c hc
      simp [plot_section, hs, hc]
    · intro e he
      simp [plot_section, hs, he]
  · intro sd
    simp [plot_section]
  · intro mf sd h1 h3
    constructor
    · intro c hc
      rw [plot_section, if_neg h3, if_neg h1, hc]
    · intro e he
      rw [plot_section, if_neg h3, if_neg h1, he]

/-- C9: the loader error discipline. When the path does not exist,
load_file fails with the not-found error, and its result does not depend
on the parser at all (the parser is not invoked); when the path exists
and the parser fails, load_file fails with the wrapping error embedding
the underlying failure; when the path exists and the parser succeeds,
load_file returns the parsed material unchanged. -/
theorem load_file_error_discipline :
    (∀ (M : Type) (fs : String → Bool) (parse : String → Except String M) (path : String),
      fs path = false →
        load_file fs parse path = Except.error (LoadError.fileNotFound path)
        ∧ ∀ parse2 : String → Except String M,
            load_file fs parse2 path = load_file fs parse path)
    ∧ (∀ (M : Type) (fs : String → Bool) (parse : String → Except String M)
        (path : String) (m : M),
        fs path = true → parse path = Except.ok m →
        load_file fs parse path = Except.ok m)
    ∧ (∀ (M : Type) (fs : String → Bool) (parse : String → Except String M)
        (path : String) (e : String),
        fs path = true → parse path = Except.error e →
        load_file fs parse path = Except.error (LoadError.parseError e)) := by
  refine ⟨?_, ?_, ?_⟩
  · intro M fs parse path h
    constructor
    · simp [load_file, h]
    · intro parse2
      simp [load_file, h]
  · intro M fs parse path m h hp
    simp [load_file, h, hp]
  · intro M fs parse path e h hp
    simp [load_file, h, hp]

/-- An array value is not a scalar: the formatter buckets are disjoint. -/
theorem isScalar_eq_false_of_isArr (v : EndfValue) (h : v.isArr = true) :
    v.isScalar = false := by
  cases v <;> simp_all [EndfValue.isArr, EndfValue.isScalar]

/-- A scalar value is not an array: the formatter buckets are disjoint. -/
theorem isArr_eq_false_of_isScalar (v : EndfValue) (h : v.isScalar = true) :
    v.isArr = false := by
  cases v <;> simp_all [EndfValue.isArr, EndfValue.isScalar]

/-- C7: the scalar float formatting rule. A float is rendered in
scientific notation exactly when its magnitude is below 1/1000 or above
1000, and in fixed-point with 6 decimals otherwise; in particular
0.00005 and 5000.0 render in scientific notation and 12.3456789 renders
as 12.345679. -/
theorem scalar_float_format_rule :
    (∀ v : Dec, useSci v = true ↔
      |Dec.toRat v| < 1 / 1000 ∨ 1000 < |Dec.toRat v|)
    ∧ (∀ v : Dec, useSci v = true → formatFloat v = formatSci v)
    ∧ (∀ v : Dec, useSci v = false → formatFloat v = formatFixed6 v)
    ∧ useSci ⟨5, 5⟩ = true ∧ formatFloat ⟨5, 5⟩ = "5.000000e-05"
    ∧ useSci ⟨123456789, 7⟩ = false ∧ formatFloat ⟨123456789, 7⟩ = "12.345679"
    ∧ useSci ⟨5000, 0⟩ = true ∧ formatFloat ⟨5000, 0⟩ = "5.000000e+03" := by
  refine ⟨?_, ?_, ?_, rfl, rfl, rfl, rfl, rfl, rfl⟩
  · intro v
    have h10 : (0 : ℚ) < 10 ^ v.exp := by positivity
    have habs : |Dec.toRat v| = (v.num.natAbs : ℚ) / 10 ^ v.exp := by
      rw [Dec.toRat, abs_div, abs_of_pos h10, Int.cast_natAbs, Int.cast_abs]
    simp only [useSci, Bool.or_eq_true, decide_eq_true_eq, habs]
    apply or_congr
    · rw [div_lt_div_iff₀ h10 (by norm_num : (0 : ℚ) < 1000), one_mul, mul_comm]
      constructor
      · intro h; exact_mod_cast h
      · intro h; exact_mod_cast h
    · rw [lt_div_iff₀ h10]
      constructor
      · intro h; exact_mod_cast h
      · intro h; exact_mod_cast h
  · intro v h
    simp [formatFloat, h]
  · intro v h
    simp [formatFloat, h]

/-- Sorting a bucket does not change whether it is empty. -/
theorem sortByKey_isEmpty {A : Type} (l : List (String × A)) :
    (sortByKey l).isEmpty = l.isEmpty := by
  have hlen : (sortByKey l).length = l.length :=
    (List.perm_insertionSort (@keyLE A) l).length_eq
  cases hs : sortByKey l <;> cases hl : l <;> simp_all

/-- C8: textual formatter array rendering and key ordering. Each
nonempty array field renders its key, its size, and a sample of the
first five elements, each in scientific notation and joined with
comma-space separators, followed by the truncation marker carrying the
omitted count exactly when the array has more than five elements; the
per-bucket sort is sorted with respect to the lexicographic key order
and is a permutation of the bucket; and every nonempty section, mixed
or not, renders as the scalar block, then the array block, then the
complex-object block, where each block is empty when its bucket is and
otherwise lists its header and the entries of its bucket in a key-sorted
order: the scalar keys, the array keys and the other-object keys are
each sorted before rendering. -/
theorem formatter_array_rendering_and_ordering :
    (∀ (indent k : String) (xs : List Dec), xs ≠ [] →
      arrayChunks indent k xs =
        [indent ++ "  " ++ k ++ ": ", "length=" ++ toString xs.length ++ "\n",
         indent ++ "    Sample: ["] ++ sampleChunks (xs.take 5)
        ++ (if 5 < xs.length then [", ... (" ++ toString (xs.length - 5) ++ " more)"] else [])
        ++ ["]\n"])
    ∧ (∀ ys : List Dec, sampleChunks ys = List.intersperse ", " (ys.map formatSci))
    ∧ (∀ (A : Type) (l : List (String × A)),
        List.Sorted (@keyLE A) (sortByKey l) ∧ (sortByKey l).Perm l)
    ∧ (∀ (indent : String) (sd : SectionData), sd ≠ [] →
        ∃ sc ar ob : List (String × EndfValue),
          sc.Perm (sd.filter (fun p => p.2.isScalar))
          ∧ List.Sorted (@keyLE EndfValue) sc
          ∧ ar.Perm (sd.filter (fun p => p.2.isArr))
          ∧ List.Sorted (@keyLE EndfValue) ar
          ∧ ob.Perm (sd.filter (fun p => !p.2.isScalar && !p.2.isArr))
          ∧ List.Sorted (@keyLE EndfValue) ob
          ∧ format_section_data sd indent =
              (if sc.isEmpty then [] else (indent ++ "Scalar Values:\n")
                  :: sc.flatMap (fun p => scalarChunks indent p.1 p.2))
              ++ (if ar.isEmpty then [] else ("\n" ++ indent ++ "Array Data:\n")
                  :: ar.flatMap (fun p => arrayChunksOf indent p.1 p.2))
              ++ (if ob.isEmpty then [] else ("\n" ++ indent ++ "Complex Objects:\n")
                  :: ob.flatMap (fun p => objectChunks indent p.1 p.2))) := by
  refine ⟨?_, ?_, ?_, ?_⟩
  · intro indent k xs h
    have hpos : 0 < xs.length := List.length_pos.mpr h
    have htake : xs.take (min 5 xs.length) = xs.take 5 := by
      rcases le_total xs.length 5 with h5 | h5
      · rw [min_eq_right h5, List.take_length, List.take_of_length_le h5]
      · rw [min_eq_left h5]
    have hcond : (min 5 xs.length < xs.length) ↔ (5 < xs.length) := by omega
    have hsub : xs.length - min 5 xs.length = xs.length - 5 := by omega
    simp only [arrayChunks, hpos, if_true, htake, hcond, hsub]
    simp [List.append_assoc]
  · intro ys
    induction ys with
    | nil => rfl
    | cons v rest ih =>
      cases rest with
      | nil => rfl
      | cons w r =>
        show formatSci v :: ", " :: sampleChunks (w :: r) = _
        rw [ih]
        rfl
  · intro A l
    exact ⟨List.sorted_insertionSort _ l, List.perm_insertionSort _ l⟩
  · intro indent sd h
    refine ⟨sortByKey (sd.filter (fun p => p.2.isScalar)),
            sortByKey (sd.filter (fun p => p.2.isArr)),
            sortByKey (sd.filter (fun p => !p.2.isScalar && !p.2.isArr)),
            List.perm_insertionSort _ _, List.sorted_insertionSort _ _,
            List.perm_insertionSort _ _, List.sorted_insertionSort _ _,
            List.perm_insertionSort _ _, List.sorted_insertionSort _ _, ?_⟩
    have hne : sd.isEmpty = false := by simp [List.isEmpty_iff, h]
    rw [sortByKey_isEmpty, sortByKey_isEmpty, sortByKey_isEmpty]
    simp only [format_section_data, hne]
    rfl

end FendlVis
